import Mathlib

/-!
A shallow embedding of the baemin-monitor pipeline (`src/main.py` together
with `src/sheets_manager.py`), and proofs of the behavioural properties
claimed for it.

The browser, the network and the clock are modelled by an explicit
environment (`Env`): each Selenium / requests primitive that the program
calls is a field of the environment, and each place where the Python code
can raise is a field telling whether it raises.  Machine-level side
effects (logging, directories) are dropped; the `results` dictionary of
`BaeminMonitor` is the `RunResult` structure, with `Option` fields for
dictionary keys that are only sometimes present.

String operations mirror Python semantics at the character-list level
(`pyTake s n` is `s[:n]`, `pyLower` is `s.lower()`, `pyStartsWith` is
`s.startswith(p)`), so that every definition evaluates inside the kernel.
-/

/-- Python `s[:n]`: the first `n` characters of `s`. -/
def pyTake (s : String) (n : Nat) : String :=
  String.mk (s.toList.take n)

/-- Python `s.lower()`, character by character. -/
def pyLower (s : String) : String :=
  String.mk (s.toList.map Char.toLower)

/-- Python `s.startswith(p)`. -/
def pyStartsWith (s p : String) : Bool :=
  p.toList.isPrefixOf s.toList

/-- Does `pat` occur as a contiguous substring of `s` (Python `pat in s`)? -/
def hasSub : List Char → List Char → Bool
  | pat, [] => pat.isEmpty
  | pat, c :: t => pat.isPrefixOf (c :: t) || hasSub pat t

/-- Python `pat in s` on strings. -/
def containsText (s pat : String) : Bool :=
  hasSub pat.toList s.toList

/-- Decimal digits of `n`, most significant first; `fuel` bounds recursion depth. -/
def decDigitsAux : Nat → Nat → List Char
  | 0, _ => []
  | f + 1, n =>
    if n < 10 then [Nat.digitChar n]
    else decDigitsAux f (n / 10) ++ [Nat.digitChar (n % 10)]

/-- Decimal digits of `n`, most significant first, no leading zeros. -/
def decDigits (n : Nat) : List Char :=
  decDigitsAux (n + 1) n

/-- Python `f'{n:02d}'`: decimal digits of `n` zero-padded to width at least 2. -/
def pad2 (n : Nat) : String :=
  if n < 10 then String.mk ('0' :: decDigits n) else String.mk (decDigits n)

/-- The slot index label `f'S{n:02d}'` used by `extract_slots`. -/
def sIdx (n : Nat) : String :=
  "S" ++ pad2 n

/-- Numeric value of a decimal digit string (leading zeros ignored). -/
def decVal (cs : List Char) : Nat :=
  cs.foldl (fun a c => 10 * a + (c.toNat - 48)) 0

/-- Read the numeric part back out of a slot index label `S<digits>`. -/
def parseIdx (s : String) : Nat :=
  decVal (s.toList.drop 1)

/-- A DOM element as `BaeminMonitor` observes it through Selenium.
`fails = true` models the element raising (e.g. going stale) when the
code touches it, which the per-element `try/except` blocks absorb. -/
structure Element where
  text : String
  tag : String
  visible : Bool
  hrefAttr : Option String
  srcAttr : Option String
  altAttr : Option String
  fails : Bool
deriving DecidableEq

/-- One entry of the `slots` list built by `extract_slots`; `Option`
fields model dictionary keys that are present only for some tags. -/
structure Slot where
  index : String
  slotType : String
  text : String
  tag : String
  visible : Bool
  href : Option String
  src : Option String
  alt : Option String
deriving DecidableEq

/-- Python `status_code` field: an HTTP status, or the string `'ERROR'`. -/
inductive StatusCode where
  | code (n : Nat)
  | error
deriving DecidableEq

/-- One entry of the `broken_links` list built by `check_links`. -/
structure BrokenLink where
  url : String
  status_code : StatusCode
  text : String
  error : Option String
deriving DecidableEq

/-- The `self.results` dictionary of `BaeminMonitor`. -/
structure RunResult where
  timestamp : String
  date : String
  time : String
  url : String
  status : String
  login_status : String
  slots : List Slot
  broken_links : List BrokenLink
  total_slots : Nat
  total_links : Nat
  broken_link_count : Nat
  errors : List String
  screenshot : Option String
  page_title : Option String
  current_url : Option String
deriving DecidableEq

/-- Outcome of `requests.head(url, ...)`. -/
inductive HeadOutcome where
  | ok (statusCode : Nat)
  | reqError (msg : String)
deriving DecidableEq

/-- Outcome of `load_page`'s navigation-and-wait sequence: the body
element appeared, the wait timed out, or some other fault was raised. -/
inductive LoadOutcome where
  | loaded
  | timedOut
  | errored (msg : String)
deriving DecidableEq

/-- The pipeline stages of one run, in the order `run` performs them. -/
inductive Stage where
  | start
  | login
  | loadPage
  | getPageInfo
  | extractSlots
  | checkLinks
  | screenshot
  | stop
deriving DecidableEq

/-- The world one run executes in: every browser / network / clock
primitive the program calls, plus whether each fallible call raises. -/
structure Env where
  targetUrl : String
  spreadsheetId : String
  nowIso : String
  nowDate : String
  nowTime : String
  startFails : Bool
  startErrMsg : String
  loginOutcome : Option String
  loginErrMsg : String
  loadOutcome : LoadOutcome
  pageInfoFails : Bool
  pageTitle : String
  currentUrl : String
  findElements : String → Except String (List Element)
  headRequest : String → HeadOutcome
  screenshotFails : Bool
  screenshotPath : String
  quitFails : Bool
  quitErrMsg : String
  sinkFails : Bool

/-- Embeds `Config.SLOT_SELECTORS`, in declaration order. -/
def slotSelectors : List (String × String) :=
  [("main_banner", ".main-banner, .banner, [class*=\"banner\"], [class*=\"slide\"]"),
   ("content_cards", ".card, .content-card, [class*=\"card\"], [class*=\"article\"]"),
   ("menu_items", ".menu-item, .nav-item, [class*=\"menu\"], [class*=\"nav\"]"),
   ("links", "a[href]"),
   ("images", "img[src]"),
   ("sections", "section, [class*=\"section\"]")]

/-- The `self.results` dictionary as `__init__` creates it. -/
def initResults (env : Env) : RunResult :=
  { timestamp := env.nowIso
    date := env.nowDate
    time := env.nowTime
    url := env.targetUrl
    status := "pending"
    login_status := "unknown"
    slots := []
    broken_links := []
    total_slots := 0
    total_links := 0
    broken_link_count := 0
    errors := []
    screenshot := none
    page_title := none
    current_url := none }

/-- Embeds `load_page`: `True` when navigation, the body wait, the settle delay
and the (error-swallowing) scroll all complete; on timeout or any other
fault the matching error string is appended and `False` is returned. -/
def loadPage (env : Env) (r : RunResult) : RunResult × Bool :=
  match env.loadOutcome with
  | .loaded => (r, true)
  | .timedOut => ({ r with errors := r.errors ++ ["Page load timeout"] }, false)
  | .errored msg => ({ r with errors := r.errors ++ ["Page load error: " ++ msg] }, false)

/-- Embeds `get_page_info`: records title and current URL; any fault is swallowed. -/
def getPageInfo (env : Env) (r : RunResult) : RunResult :=
  if env.pageInfoFails then r
  else { r with page_title := some env.pageTitle, current_url := some env.currentUrl }

/-- The slot dictionary built for one element inside `extract_slots`. -/
def mkSlot (slotType : String) (idx : Nat) (e : Element) : Slot :=
  { index := sIdx idx
    slotType := slotType
    text := pyTake e.text 100
    tag := e.tag
    visible := e.visible
    href := if e.tag = "a" then some (e.hrefAttr.getD "") else none
    src := if e.tag = "img" then some (e.srcAttr.getD "") else none
    alt := if e.tag = "img" then some (e.altAttr.getD "") else none }

/-- The inner loop of `extract_slots` over one selector group's elements
(already truncated to the first 20): a failing element is skipped without
consuming an index; the running `slot_index` is threaded through. -/
def extractElems (slotType : String) : List Element → Nat → List Slot × Nat
  | [], idx => ([], idx)
  | e :: es, idx =>
    if e.fails then extractElems slotType es idx
    else
      let rest := extractElems slotType es (idx + 1)
      (mkSlot slotType idx e :: rest.1, rest.2)

/-- The outer loop of `extract_slots` over `Config.SLOT_SELECTORS`: a
selector group whose query raises is skipped whole; the `slot_index`
counter is never reset between groups. -/
def extractGroups (env : Env) : List (String × String) → Nat → List Slot × Nat
  | [], idx => ([], idx)
  | (ty, sel) :: gs, idx =>
    match env.findElements sel with
    | .error _ => extractGroups env gs idx
    | .ok elems =>
      let here := extractElems ty (elems.take 20) idx
      let rest := extractGroups env gs here.2
      (here.1 ++ rest.1, rest.2)

/-- Embeds `extract_slots`: runs the selector groups and stores `slots` and
`total_slots` in the results. -/
def extractSlots (env : Env) (r : RunResult) : RunResult :=
  let slots := (extractGroups env slotSelectors 1).1
  { r with slots := slots, total_slots := slots.length }

/-- The body of `check_links`' per-link loop: accumulates the set of
checked URLs (`checked_urls`) and the `broken_links` list.  A link whose
attribute access raises is skipped; empty, already-seen, `javascript:`
and `#` hrefs are skipped; every other URL gets one HEAD request. -/
def checkLinksLoop (env : Env) : List Element → List String → List BrokenLink →
    List String × List BrokenLink
  | [], checked, broken => (checked, broken)
  | link :: rest, checked, broken =>
    if link.fails then checkLinksLoop env rest checked broken
    else
      match link.hrefAttr with
      | none => checkLinksLoop env rest checked broken
      | some url =>
        if url = "" ∨ url ∈ checked then checkLinksLoop env rest checked broken
        else if pyStartsWith url "javascript:" ∨ pyStartsWith url "#" then
          checkLinksLoop env rest checked broken
        else
          match env.headRequest url with
          | .ok status =>
            if status ≥ 400 then
              checkLinksLoop env rest (checked ++ [url])
                (broken ++ [{ url := url, status_code := .code status,
                              text := pyTake link.text 50, error := none }])
            else checkLinksLoop env rest (checked ++ [url]) broken
          | .reqError e =>
            checkLinksLoop env rest (checked ++ [url])
              (broken ++ [{ url := url, status_code := .error,
                            text := pyTake link.text 50, error := some (pyTake e 50) }])

/-- Embeds `check_links`: queries `a[href]`, walks the first 50 anchors, and
stores `total_links`, `broken_links` and `broken_link_count`; if the
query itself raises, the error string is appended instead. -/
def checkLinks (env : Env) (r : RunResult) : RunResult :=
  match env.findElements "a[href]" with
  | .error msg => { r with errors := r.errors ++ ["Link check error: " ++ msg] }
  | .ok links =>
    let p := checkLinksLoop env (links.take 50) [] []
    { r with total_links := p.1.length, broken_links := p.2,
             broken_link_count := p.2.length }

/-- Embeds `take_screenshot`: stores the path on success; a fault is swallowed
without touching the results (it is only logged). -/
def takeScreenshot (env : Env) (r : RunResult) : RunResult :=
  if env.screenshotFails then r
  else { r with screenshot := some env.screenshotPath }

/-- The `try`-block body of `run` together with its `except` clause:
always terminates with a results dictionary (every stage-level fault is
either absorbed by the stage or caught by `run`'s handler, which sets
`status = 'error'`).  Also returns the stages that were entered. -/
def runBody (env : Env) (r0 : RunResult) : RunResult × List Stage :=
  if env.startFails then
    ({ r0 with status := "error", errors := r0.errors ++ [env.startErrMsg] },
     [Stage.start])
  else
    match env.loginOutcome with
    | none =>
      ({ r0 with status := "error", errors := r0.errors ++ [env.loginErrMsg] },
       [Stage.start, Stage.login])
    | some ls =>
      let r1 := { r0 with login_status := ls }
      let lp := loadPage env r1
      if lp.2 then
        let r3 := getPageInfo env lp.1
        let r4 := extractSlots env r3
        let r5 := checkLinks env r4
        let r6 := takeScreenshot env r5
        ({ r6 with status := "success" },
         [Stage.start, Stage.login, Stage.loadPage, Stage.getPageInfo,
          Stage.extractSlots, Stage.checkLinks, Stage.screenshot])
      else
        let r3 := { lp.1 with status := "failed" }
        let r4 := takeScreenshot env r3
        (r4, [Stage.start, Stage.login, Stage.loadPage, Stage.screenshot])

/-- Embeds `BaeminMonitor.run`: the `try/except/finally`.  `stop` is always
invoked; when a driver exists and `quit` raises, that exception escapes
`run` (there is no handler around the `finally` block), so the computed
results are discarded. -/
def run (env : Env) : Except String RunResult × List Stage :=
  let body := runBody env (initResults env)
  let acts := body.2 ++ [Stage.stop]
  if env.startFails = false ∧ env.quitFails = true then
    (Except.error env.quitErrMsg, acts)
  else
    (Except.ok body.1, acts)

/-- Embeds `save_to_sheets`: skipped without a spreadsheet id; any exception
while authenticating or appending is caught and turned into `False`. -/
def saveToSheets (env : Env) (r : RunResult) : Bool :=
  if env.spreadsheetId = "" then false
  else if env.sinkFails then false
  else true

/-- What `main` produces: the process exit code, whether the local JSON
artifact was written, whether the sheet append reported success, and the
results it worked from. -/
structure MainOutcome where
  exitCode : Nat
  jsonWritten : Bool
  sheetsSaved : Bool
  results : RunResult
deriving DecidableEq

/-- Embeds `main`: runs the monitor, appends to the sheet (best effort), writes
the JSON artifact, and exits 0 exactly when `status == 'success'`.  An
exception escaping `run` is uncaught and aborts `main`. -/
def mainRun (env : Env) : Except String MainOutcome :=
  match (run env).1 with
  | .error e => .error e
  | .ok results =>
    .ok { exitCode := if results.status = "success" then 0 else 1
          jsonWritten := true
          sheetsSaved := saveToSheets env results
          results := results }

/-- Modelled from the spec: `src/` contains no access-status
classification (the only statuses `src/main.py` produces are
`pending/success/failed/error`); the classification of spec §4.3 belongs
to a pipeline variant of this repository that is not included under
`src/`.  This is the fixed keyword set associated with blocking
(security-notice / blocked / access-denied / restricted-access terms,
including the Korean term of scenario B). -/
def blockingKeywords : List String :=
  ["보안", "차단", "blocked", "access denied", "restricted"]

/-- Modelled from the spec: the known in-domain marker string whose
presence suppresses the blocked classification (spec §4.3). -/
def inDomainMarker : String :=
  "배민"

/-- Modelled from the spec: the §4.3 access-status classifier — lower-case
the page content; `blocked` iff some blocking keyword occurs and the
in-domain marker is absent, else `success`. -/
def classifyAccess (pageSource : String) : String :=
  let content := pyLower pageSource
  if (blockingKeywords.any fun kw => containsText content kw)
      && !(containsText content inDomainMarker) then "blocked" else "success"

/-- Observable outcome of the spec-modelled pipeline variant around the
access classification. -/
structure SpecRunOutcome where
  access_status : String
  status : String
  ranExtraction : Bool
  ranLinkCheck : Bool
  screenshotAttempted : Bool
deriving DecidableEq

/-- Modelled from the spec: the §4.3 / scenario-B pipeline shape around
the access classification: after a successful load the access status is
classified; `blocked` sets the overall status to `blocked` and skips
extraction and link checking while still attempting a screenshot. -/
def runSpecPipeline (loadOk : Bool) (pageSource : String) : SpecRunOutcome :=
  if loadOk then
    let acc := classifyAccess pageSource
    if acc = "blocked" then
      { access_status := "blocked", status := "blocked",
        ranExtraction := false, ranLinkCheck := false, screenshotAttempted := true }
    else
      { access_status := acc, status := "success",
        ranExtraction := true, ranLinkCheck := true, screenshotAttempted := true }
  else
    { access_status := "unknown", status := "failed",
      ranExtraction := false, ranLinkCheck := false, screenshotAttempted := true }

/-- A concrete baseline world for witnesses and counterexamples: every
stage succeeds, the page has no elements, no spreadsheet is configured. -/
def envBase : Env :=
  { targetUrl := "https://ceo.baemin.com"
    spreadsheetId := ""
    nowIso := "2026-10-12T00:00:00"
    nowDate := "2026-10-12"
    nowTime := "00:00:00"
    startFails := false
    startErrMsg := "start failed"
    loginOutcome := some "no_cookies"
    loginErrMsg := "login failed"
    loadOutcome := .loaded
    pageInfoFails := false
    pageTitle := "배민외식업광장"
    currentUrl := "https://ceo.baemin.com/"
    findElements := fun _ => .ok []
    headRequest := fun _ => .ok 200
    screenshotFails := false
    screenshotPath := "screenshots/screenshot_20261012_000000.png"
    quitFails := false
    quitErrMsg := "quit failed"
    sinkFails := false }

theorem takeScreenshot_slots (env : Env) (r : RunResult) :
    (takeScreenshot env r).slots = r.slots := by
  unfold takeScreenshot; split <;> rfl

theorem takeScreenshot_broken_links (env : Env) (r : RunResult) :
    (takeScreenshot env r).broken_links = r.broken_links := by
  unfold takeScreenshot; split <;> rfl

theorem takeScreenshot_status (env : Env) (r : RunResult) :
    (takeScreenshot env r).status = r.status := by
  unfold takeScreenshot; split <;> rfl

theorem takeScreenshot_errors (env : Env) (r : RunResult) :
    (takeScreenshot env r).errors = r.errors := by
  unfold takeScreenshot; split <;> rfl

theorem takeScreenshot_total_slots (env : Env) (r : RunResult) :
    (takeScreenshot env r).total_slots = r.total_slots := by
  unfold takeScreenshot; split <;> rfl

theorem takeScreenshot_broken_link_count (env : Env) (r : RunResult) :
    (takeScreenshot env r).broken_link_count = r.broken_link_count := by
  unfold takeScreenshot; split <;> rfl

theorem getPageInfo_slots (env : Env) (r : RunResult) :
    (getPageInfo env r).slots = r.slots := by
  unfold getPageInfo; split <;> rfl

theorem getPageInfo_broken_links (env : Env) (r : RunResult) :
    (getPageInfo env r).broken_links = r.broken_links := by
  unfold getPageInfo; split <;> rfl

theorem getPageInfo_total_slots (env : Env) (r : RunResult) :
    (getPageInfo env r).total_slots = r.total_slots := by
  unfold getPageInfo; split <;> rfl

theorem getPageInfo_broken_link_count (env : Env) (r : RunResult) :
    (getPageInfo env r).broken_link_count = r.broken_link_count := by
  unfold getPageInfo; split <;> rfl

theorem getPageInfo_errors (env : Env) (r : RunResult) :
    (getPageInfo env r).errors = r.errors := by
  unfold getPageInfo; split <;> rfl

theorem loadPage_slots (env : Env) (r : RunResult) :
    (loadPage env r).1.slots = r.slots := by
  unfold loadPage; cases env.loadOutcome <;> rfl

theorem loadPage_broken_links (env : Env) (r : RunResult) :
    (loadPage env r).1.broken_links = r.broken_links := by
  unfold loadPage; cases env.loadOutcome <;> rfl

theorem loadPage_total_slots (env : Env) (r : RunResult) :
    (loadPage env r).1.total_slots = r.total_slots := by
  unfold loadPage; cases env.loadOutcome <;> rfl

theorem loadPage_broken_link_count (env : Env) (r : RunResult) :
    (loadPage env r).1.broken_link_count = r.broken_link_count := by
  unfold loadPage; cases env.loadOutcome <;> rfl

theorem checkLinks_slots (env : Env) (r : RunResult) :
    (checkLinks env r).slots = r.slots := by
  unfold checkLinks; cases env.findElements "a[href]" <;> rfl

theorem checkLinks_status (env : Env) (r : RunResult) :
    (checkLinks env r).status = r.status := by
  unfold checkLinks; cases env.findElements "a[href]" <;> rfl

theorem checkLinks_total_slots (env : Env) (r : RunResult) :
    (checkLinks env r).total_slots = r.total_slots := by
  unfold checkLinks; cases env.findElements "a[href]" <;> rfl

theorem checkLinks_counts (env : Env) (r : RunResult)
    (h : r.broken_link_count = r.broken_links.length) :
    (checkLinks env r).broken_link_count = (checkLinks env r).broken_links.length := by
  unfold checkLinks; cases env.findElements "a[href]" <;> simp [h]

/-- C1: in every run in which the page load succeeds and the page content
contains a blocking keyword while the in-domain marker is absent, the
access status is classified `blocked`, the overall status is set to
`blocked`, slot extraction and link checking are skipped, and a
screenshot is still attempted (spec-modelled §4.3 / scenario B pipeline). -/
theorem c1_blocked_short_circuit (pageSource : String)
    (hkw : (blockingKeywords.any fun kw => containsText (pyLower pageSource) kw) = true)
    (hmk : containsText (pyLower pageSource) inDomainMarker = false) :
    runSpecPipeline true pageSource =
      { access_status := "blocked", status := "blocked",
        ranExtraction := false, ranLinkCheck := false,
        screenshotAttempted := true } := by
  simp [runSpecPipeline, classifyAccess, hkw, hmk]

/-- Witness for C1 at the concrete scenario-B page body. -/
theorem c1_blocked_short_circuit_witness :
    ((blockingKeywords.any fun kw =>
        containsText (pyLower "현재 접속이 차단 되었습니다") kw) = true) ∧
    runSpecPipeline true "현재 접속이 차단 되었습니다" =
      { access_status := "blocked", status := "blocked",
        ranExtraction := false, ranLinkCheck := false,
        screenshotAttempted := true } :=
  ⟨by decide, c1_blocked_short_circuit "현재 접속이 차단 되었습니다" (by decide) (by decide)⟩

/-- A concrete world in which every pipeline stage succeeds but
`driver.quit` raises during teardown. -/
def envC2 : Env :=
  { envBase with quitFails := true }

/-- C2 (counterexample): the run body determined `status = 'success'`,
yet because `stop` has no exception handler the teardown error escapes
`run` (and `main`), overriding the already-determined run status. -/
theorem c2_teardown_not_swallowed_cex :
    (runBody envC2 (initResults envC2)).1.status = "success" ∧
    (run envC2).1 = Except.error "quit failed" ∧
    mainRun envC2 = Except.error "quit failed" :=
  ⟨rfl, rfl, rfl⟩

theorem run_acts (env : Env) :
    (run env).2 = (runBody env (initResults env)).2 ++ [Stage.stop] := by
  unfold run; split <;> rfl

/-- C2 (amended): browser teardown is invoked on the terminal path of
every run, but a teardown error is NOT swallowed: when a driver was
created and `quit` raises, `run` propagates the teardown exception
instead of returning the already-determined results; in all other worlds
the body's results are returned unchanged. -/
theorem c2_teardown_on_terminal_path (env : Env) :
    Stage.stop ∈ (run env).2 ∧
    (run env).1 = (if env.startFails = false ∧ env.quitFails = true
                   then Except.error env.quitErrMsg
                   else Except.ok (runBody env (initResults env)).1) := by
  constructor
  · rw [run_acts]; simp
  · unfold run
    split <;> simp_all

/-- C5: whenever navigation fails before the body element appears, a run
that returns results reports status `failed` or `error`, with empty
`slots` and `broken_links`, and neither extraction nor link checking was
entered. -/
theorem c5_navigation_failure (env : Env) (r : RunResult)
    (hload : env.loadOutcome ≠ LoadOutcome.loaded)
    (hok : (run env).1 = Except.ok r) :
    (r.status = "failed" ∨ r.status = "error") ∧
    r.slots = [] ∧ r.broken_links = [] ∧
    Stage.extractSlots ∉ (run env).2 ∧ Stage.checkLinks ∉ (run env).2 := by
  rw [run_acts]
  unfold run at hok
  split at hok
  · exact absurd hok (by simp)
  · have hr : r = (runBody env (initResults env)).1 := by
      injection hok with h
      exact h.symm
    subst hr
    unfold runBody
    by_cases hs : env.startFails
    · simp [hs, initResults]
    · simp only [hs, Bool.false_eq_true, if_false]
      cases hlo : env.loginOutcome with
      | none => simp [initResults]
      | some ls =>
        cases hl : env.loadOutcome with
        | loaded => exact absurd hl hload
        | timedOut =>
          simp [loadPage, hl, takeScreenshot_status, takeScreenshot_slots,
                takeScreenshot_broken_links, initResults]
        | errored msg =>
          simp [loadPage, hl, takeScreenshot_status, takeScreenshot_slots,
                takeScreenshot_broken_links, initResults]

/-- A concrete world whose navigation times out before the body appears. -/
def envW5 : Env :=
  { envBase with loadOutcome := .timedOut }

/-- Witness for C5 at a concrete timed-out navigation. -/
theorem c5_navigation_failure_witness :
    (match (run envW5).1 with
     | Except.ok r => (r.status = "failed" ∨ r.status = "error") ∧
         r.slots = [] ∧ r.broken_links = []
     | Except.error _ => False) ∧
    Stage.extractSlots ∉ (run envW5).2 := by
  have h := c5_navigation_failure envW5 ((runBody envW5 (initResults envW5)).1)
    (by decide) rfl
  exact ⟨⟨h.1, h.2.1, h.2.2.1⟩, h.2.2.2.1⟩

theorem pipeline_counts (env : Env) (r : RunResult)
    (h : r.broken_link_count = r.broken_links.length) :
    (takeScreenshot env (checkLinks env (extractSlots env (getPageInfo env r)))).total_slots
      = (takeScreenshot env (checkLinks env (extractSlots env (getPageInfo env r)))).slots.length ∧
    (takeScreenshot env (checkLinks env (extractSlots env (getPageInfo env r)))).broken_link_count
      = (takeScreenshot env (checkLinks env (extractSlots env (getPageInfo env r)))).broken_links.length := by
  constructor
  · rw [takeScreenshot_total_slots, takeScreenshot_slots,
        checkLinks_total_slots, checkLinks_slots]
    rfl
  · rw [takeScreenshot_broken_link_count, takeScreenshot_broken_links]
    refine checkLinks_counts env _ ?_
    show (getPageInfo env r).broken_link_count = (getPageInfo env r).broken_links.length
    rw [getPageInfo_broken_link_count, getPageInfo_broken_links]
    exact h

/-- C7: every run that returns results satisfies
`total_slots == length(slots)` and `broken_link_count == length(broken_links)`. -/
theorem c7_finalized_counts (env : Env) (r : RunResult)
    (hok : (run env).1 = Except.ok r) :
    r.total_slots = r.slots.length ∧ r.broken_link_count = r.broken_links.length := by
  unfold run at hok
  split at hok
  · exact absurd hok (by simp)
  · have hr : r = (runBody env (initResults env)).1 := by
      injection hok with h
      exact h.symm
    subst hr
    unfold runBody
    by_cases hs : env.startFails
    · simp [hs, initResults]
    · simp only [hs, Bool.false_eq_true, if_false]
      cases hlo : env.loginOutcome with
      | none => simp [initResults]
      | some ls =>
        cases hl : env.loadOutcome with
        | loaded =>
          simp only [loadPage, hl]
          have h := pipeline_counts env
            { initResults env with login_status := ls } (by simp [initResults])
          simpa using h
        | timedOut =>
          simp [loadPage, hl, takeScreenshot_total_slots, takeScreenshot_slots,
                takeScreenshot_broken_link_count, takeScreenshot_broken_links,
                initResults]
        | errored msg =>
          simp [loadPage, hl, takeScreenshot_total_slots, takeScreenshot_slots,
                takeScreenshot_broken_link_count, takeScreenshot_broken_links,
                initResults]

/-- Witness for C7 at a concrete world whose navigation times out. -/
theorem c7_finalized_counts_witness :
    ((runBody envW5 (initResults envW5)).1.total_slots
       = (runBody envW5 (initResults envW5)).1.slots.length) ∧
    ((runBody envW5 (initResults envW5)).1.broken_link_count
       = (runBody envW5 (initResults envW5)).1.broken_links.length) :=
  c7_finalized_counts envW5 ((runBody envW5 (initResults envW5)).1) rfl

/-- C9: for every run that returns results, the exit code is `0` iff
`status == 'success'` and otherwise `1`, computed from the run results
alone — the sheet-append outcome (missing configuration, auth failure,
API error, all collapsed into `saveToSheets`) never enters into it — and
the local JSON artifact is still written. -/
theorem c9_exit_code (env : Env) (r : RunResult)
    (hok : (run env).1 = Except.ok r) :
    mainRun env = Except.ok
      { exitCode := if r.status = "success" then 0 else 1,
        jsonWritten := true, sheetsSaved := saveToSheets env r, results := r } := by
  unfold mainRun
  rw [hok]

/-- A concrete world where browser creation itself raises. -/
def envW9 : Env :=
  { envBase with startFails := true, sinkFails := true }

/-- Results of the run in `envW9`. -/
def rW9 : RunResult :=
  (runBody envW9 (initResults envW9)).1

/-- Witness for C9: in `envW9` the sink also fails, yet `main` still
writes the JSON artifact and exits by status alone. -/
theorem c9_exit_code_witness :
    mainRun envW9 = Except.ok
      { exitCode := if rW9.status = "success" then 0 else 1,
        jsonWritten := true, sheetsSaved := saveToSheets envW9 rW9, results := rW9 } ∧
    rW9.status = "error" :=
  ⟨c9_exit_code envW9 rW9 rfl, by decide⟩

/-- C10: when the page load succeeds but the link-check stage fails at
the stage level (the anchor query raises), the error string is appended
to the results' errors, the final status is still `'success'`, and the
process exits with code `0`. -/
theorem c10_linkcheck_stage_failure (env : Env) (ls msg : String)
    (hstart : env.startFails = false)
    (hlogin : env.loginOutcome = some ls)
    (hload : env.loadOutcome = LoadOutcome.loaded)
    (hlinks : env.findElements "a[href]" = Except.error msg)
    (hquit : env.quitFails = false) :
    (runBody env (initResults env)).1.status = "success" ∧
    ("Link check error: " ++ msg) ∈ (runBody env (initResults env)).1.errors ∧
    mainRun env = Except.ok
      { exitCode := 0, jsonWritten := true,
        sheetsSaved := saveToSheets env (runBody env (initResults env)).1,
        results := (runBody env (initResults env)).1 } := by
  have hok : (run env).1 = Except.ok (runBody env (initResults env)).1 := by
    unfold run
    simp [hstart, hquit]
  have hst : (runBody env (initResults env)).1.status = "success" := by
    unfold runBody
    simp [hstart, hlogin, loadPage, hload, takeScreenshot_status, checkLinks_status]
  have herr : ("Link check error: " ++ msg) ∈ (runBody env (initResults env)).1.errors := by
    unfold runBody
    simp only [hstart, Bool.false_eq_true, if_false, hlogin, loadPage, hload]
    rw [takeScreenshot_errors]
    unfold checkLinks
    rw [hlinks]
    simp
  refine ⟨hst, herr, ?_⟩
  unfold mainRun
  rw [hok]
  simp [hst]

/-- A concrete world where the anchor query of `check_links` raises. -/
def envW10 : Env :=
  { envBase with findElements := fun sel =>
      if sel = "a[href]" then .error "stale element" else .ok [] }

/-- Witness for C10 at `envW10`. -/
theorem c10_linkcheck_stage_failure_witness :
    (runBody envW10 (initResults envW10)).1.status = "success" ∧
    ("Link check error: " ++ "stale element") ∈ (runBody envW10 (initResults envW10)).1.errors ∧
    mainRun envW10 = Except.ok
      { exitCode := 0, jsonWritten := true,
        sheetsSaved := saveToSheets envW10 (runBody envW10 (initResults envW10)).1,
        results := (runBody envW10 (initResults envW10)).1 } :=
  c10_linkcheck_stage_failure envW10 "no_cookies" "stale element"
    rfl rfl rfl rfl rfl

/-- Invariant carried through `check_links`' per-link loop, relative to
the URLs `checked0` already seen when the loop state is entered: the
checked set stays duplicate-free, broken links are unique per URL and
all checked, and every newly checked URL is a non-empty, non-skipped
href of the remaining anchors. -/
def loopInv (links : List Element) (checked0 : List String)
    (p : List String × List BrokenLink) : Prop :=
  p.1.Nodup ∧
  (p.2.map BrokenLink.url).Nodup ∧
  (∀ b ∈ p.2, b.url ∈ p.1) ∧
  (∀ u ∈ p.1, u ∈ checked0 ∨
    (¬(u = "") ∧ pyStartsWith u "javascript:" = false ∧
     pyStartsWith u "#" = false ∧ u ∈ links.filterMap Element.hrefAttr))

theorem mem_filterMap_lift {α β : Type} (f : α → Option β) (a : α) (l : List α)
    {u : β} (h : u ∈ l.filterMap f) : u ∈ (a :: l).filterMap f := by
  rcases List.mem_filterMap.mp h with ⟨x, hx, hfx⟩
  exact List.mem_filterMap.mpr ⟨x, List.mem_cons_of_mem _ hx, hfx⟩

theorem loopInv_skip (link : Element) (rest : List Element) (checked0 : List String)
    (p : List String × List BrokenLink) (h : loopInv rest checked0 p) :
    loopInv (link :: rest) checked0 p := by
  refine ⟨h.1, h.2.1, h.2.2.1, fun u hu => ?_⟩
  rcases h.2.2.2 u hu with hc | ⟨hne, hjs, hhash, hmem⟩
  · exact Or.inl hc
  · exact Or.inr ⟨hne, hjs, hhash, mem_filterMap_lift _ _ _ hmem⟩

theorem loopInv_take (link : Element) (rest : List Element) (checked0 : List String)
    (url : String) (p : List String × List BrokenLink)
    (hh : link.hrefAttr = some url) (hne : ¬(url = ""))
    (hjs : pyStartsWith url "javascript:" = false)
    (hhash : pyStartsWith url "#" = false)
    (h : loopInv rest (checked0 ++ [url]) p) :
    loopInv (link :: rest) checked0 p := by
  refine ⟨h.1, h.2.1, h.2.2.1, fun u hu => ?_⟩
  rcases h.2.2.2 u hu with hc | ⟨hne2, hjs2, hhash2, hmem⟩
  · rcases List.mem_append.mp hc with hc2 | hc3
    · exact Or.inl hc2
    · have : u = url := List.mem_singleton.mp hc3
      subst this
      exact Or.inr ⟨hne, hjs, hhash,
        List.mem_filterMap.mpr ⟨link, List.mem_cons_self _ _, hh⟩⟩
  · exact Or.inr ⟨hne2, hjs2, hhash2, mem_filterMap_lift _ _ _ hmem⟩

theorem checkLinksLoop_inv (env : Env) (links : List Element) :
    ∀ (checked : List String) (broken : List BrokenLink),
      checked.Nodup →
      (broken.map BrokenLink.url).Nodup →
      (∀ b ∈ broken, b.url ∈ checked) →
      loopInv links checked (checkLinksLoop env links checked broken) := by
  induction links with
  | nil =>
    intro checked broken h1 h2 h3
    exact ⟨h1, h2, h3, fun u hu => Or.inl hu⟩
  | cons link rest ih =>
    intro checked broken h1 h2 h3
    rw [checkLinksLoop]
    by_cases hf : link.fails = true
    · rw [if_pos hf]
      exact loopInv_skip _ _ _ _ (ih checked broken h1 h2 h3)
    · rw [if_neg hf]
      cases hh : link.hrefAttr with
      | none => exact loopInv_skip _ _ _ _ (ih checked broken h1 h2 h3)
      | some url =>
        dsimp only
        by_cases hseen : url = "" ∨ url ∈ checked
        · rw [if_pos hseen]
          exact loopInv_skip _ _ _ _ (ih checked broken h1 h2 h3)
        · rw [if_neg hseen]
          push_neg at hseen
          have hnodup2 : (checked ++ [url]).Nodup := by
            simp [List.nodup_append, h1, hseen.2]
          by_cases hscheme : pyStartsWith url "javascript:" = true ∨ pyStartsWith url "#" = true
          · rw [if_pos hscheme]
            exact loopInv_skip _ _ _ _ (ih checked broken h1 h2 h3)
          · rw [if_neg hscheme]
            push_neg at hscheme
            have hjs : pyStartsWith url "javascript:" = false :=
              Bool.not_eq_true _ ▸ Bool.eq_false_iff.mpr hscheme.1
            have hhash : pyStartsWith url "#" = false :=
              Bool.eq_false_iff.mpr hscheme.2
            have hmem3 : ∀ bl : BrokenLink, bl.url = url →
                ∀ b ∈ broken ++ [bl], b.url ∈ checked ++ [url] := by
              intro bl hbl b hb
              rcases List.mem_append.mp hb with hb1 | hb2
              · exact List.mem_append.mpr (Or.inl (h3 b hb1))
              · have : b = bl := List.mem_singleton.mp hb2
                subst this
                rw [hbl]
                exact List.mem_append.mpr (Or.inr (List.mem_singleton.mpr rfl))
            have hnodupb : ∀ bl : BrokenLink, bl.url = url →
                ((broken ++ [bl]).map BrokenLink.url).Nodup := by
              intro bl hbl
              rw [List.map_append]
              have hnotin : url ∉ broken.map BrokenLink.url := by
                intro hcontra
                rcases List.mem_map.mp hcontra with ⟨b, hb, hbu⟩
                exact hseen.2 (hbu ▸ h3 b hb)
              simp [List.nodup_append, h2, hbl, hnotin]
            cases hreq : env.headRequest url with
            | ok status =>
              dsimp only
              by_cases hstat : status ≥ 400
              · rw [if_pos hstat]
                exact loopInv_take _ _ _ _ _ hh hseen.1 hjs hhash
                  (ih _ _ hnodup2 (hnodupb _ rfl) (hmem3 _ rfl))
              · rw [if_neg hstat]
                refine loopInv_take _ _ _ _ _ hh hseen.1 hjs hhash
                  (ih _ _ hnodup2 h2 ?_)
                intro b hb
                exact List.mem_append.mpr (Or.inl (h3 b hb))
            | reqError e =>
              exact loopInv_take _ _ _ _ _ hh hseen.1 hjs hhash
                (ih _ _ hnodup2 (hnodupb _ rfl) (hmem3 _ rfl))

/-- A page whose only anchor is a `mailto:` link, with a network layer
that rejects `mailto:` URLs (as `requests.head` does). -/
def envC3 : Env :=
  { envBase with
      findElements := fun sel =>
        if sel = "a[href]" then
          .ok [{ text := "메일 보내기", tag := "a", visible := true,
                 hrefAttr := some "mailto:help@baemin.com", srcAttr := none,
                 altAttr := none, fails := false }]
        else .ok []
      headRequest := fun _ => .reqError "No connection adapters were found" }

/-- C3 (counterexample): a `mailto:` href IS issued a health check
(`total_links` counts it) and DOES yield a BrokenLink — `check_links`
only filters `javascript:` and `#` prefixes, not `mailto:`. -/
theorem c3_mailto_not_skipped_cex :
    (checkLinks envC3 (initResults envC3)).broken_links.map BrokenLink.url
        = ["mailto:help@baemin.com"] ∧
    (checkLinks envC3 (initResults envC3)).total_links = 1 :=
  ⟨rfl, rfl⟩

/-- C3 (amended): during link checking every anchor entry whose href is
empty, already seen this run, or starting with `javascript:` or `#` is
skipped — never issued a health-check request and never yielding a
BrokenLink; `mailto:` hrefs, however, are NOT excluded (they are checked
like any other URL, as the counterexample shows). -/
theorem c3_skip_set (env : Env) (links : List Element) :
    (checkLinksLoop env links [] []).1.Nodup ∧
    (∀ u ∈ (checkLinksLoop env links [] []).1,
        ¬(u = "") ∧ pyStartsWith u "javascript:" = false ∧
        pyStartsWith u "#" = false) ∧
    (∀ b ∈ (checkLinksLoop env links [] []).2,
        ¬(b.url = "") ∧ pyStartsWith b.url "javascript:" = false ∧
        pyStartsWith b.url "#" = false) := by
  have h := checkLinksLoop_inv env links [] [] (by simp) (by simp) (by simp)
  have hchecked : ∀ u ∈ (checkLinksLoop env links [] []).1,
      ¬(u = "") ∧ pyStartsWith u "javascript:" = false ∧
      pyStartsWith u "#" = false := by
    intro u hu
    rcases h.2.2.2 u hu with hc | hp
    · simp at hc
    · exact ⟨hp.1, hp.2.1, hp.2.2.1⟩
  exact ⟨h.1, hchecked, fun b hb => hchecked b.url (h.2.2.1 b hb)⟩

/-- Witness for C3 (amended) on the concrete `mailto:` page. -/
theorem c3_skip_set_witness :
    (checkLinksLoop envC3
      [{ text := "메일 보내기", tag := "a", visible := true,
         hrefAttr := some "mailto:help@baemin.com", srcAttr := none,
         altAttr := none, fails := false }] [] []).1.Nodup ∧
    pyStartsWith "mailto:help@baemin.com" "javascript:" = false :=
  ⟨(c3_skip_set envC3
      [{ text := "메일 보내기", tag := "a", visible := true,
         hrefAttr := some "mailto:help@baemin.com", srcAttr := none,
         altAttr := none, fails := false }]).1, by decide⟩

/-- C8: the URL set underlying BrokenLink generation is de-duplicated
before checking — the per-run `checked_urls` list is duplicate-free
(each distinct URL is health-checked at most once), the broken-link URLs
are pairwise distinct (at most one BrokenLink per URL), and every
BrokenLink URL was among the page's anchor hrefs. -/
theorem c8_broken_links_dedup (env : Env) (r : RunResult) (links : List Element)
    (hq : env.findElements "a[href]" = Except.ok links) :
    (checkLinksLoop env (links.take 50) [] []).1.Nodup ∧
    ((checkLinks env r).broken_links.map BrokenLink.url).Nodup ∧
    (∀ b ∈ (checkLinks env r).broken_links,
        b.url ∈ links.filterMap Element.hrefAttr) := by
  have h := checkLinksLoop_inv env (links.take 50) [] [] (by simp) (by simp) (by simp)
  have hb : (checkLinks env r).broken_links = (checkLinksLoop env (links.take 50) [] []).2 := by
    unfold checkLinks
    rw [hq]
  refine ⟨h.1, ?_, ?_⟩
  · rw [hb]
    exact h.2.1
  · rw [hb]
    intro b hbmem
    rcases h.2.2.2 b.url (h.2.2.1 b hbmem) with hc | hp
    · simp at hc
    · rcases List.mem_filterMap.mp hp.2.2.2 with ⟨x, hx, hfx⟩
      exact List.mem_filterMap.mpr ⟨x, List.take_subset _ _ hx, hfx⟩

/-- Anchor list with a duplicated broken href and a `javascript:` href. -/
def linksC8 : List Element :=
  [{ text := "공지", tag := "a", visible := true,
     hrefAttr := some "https://ceo.baemin.com/gone", srcAttr := none,
     altAttr := none, fails := false },
   { text := "공지 다시", tag := "a", visible := true,
     hrefAttr := some "https://ceo.baemin.com/gone", srcAttr := none,
     altAttr := none, fails := false },
   { text := "메뉴", tag := "a", visible := true,
     hrefAttr := some "javascript:void(0)", srcAttr := none,
     altAttr := none, fails := false }]

/-- A world serving `linksC8` whose duplicated href is broken (404). -/
def envC8 : Env :=
  { envBase with
      findElements := fun sel =>
        if sel = "a[href]" then .ok linksC8 else .ok []
      headRequest := fun url =>
        if url = "https://ceo.baemin.com/gone" then .ok 404 else .ok 200 }

/-- Witness for C8 on the concrete duplicated-anchor page. -/
theorem c8_broken_links_dedup_witness :
    (checkLinksLoop envC8 (linksC8.take 50) [] []).1.Nodup ∧
    ((checkLinks envC8 (initResults envC8)).broken_links.map BrokenLink.url).Nodup :=
  ⟨(c8_broken_links_dedup envC8 (initResults envC8) linksC8 rfl).1,
   (c8_broken_links_dedup envC8 (initResults envC8) linksC8 rfl).2.1⟩

theorem mkSlot_text_le (t : String) (i : Nat) (e : Element) :
    (mkSlot t i e).text.length ≤ 100 := by
  show (String.mk (e.text.toList.take 100)).length ≤ 100
  simpa using List.length_take_le 100 e.text.toList

theorem mkSlot_href_present (t : String) (i : Nat) (e : Element)
    (h : (mkSlot t i e).tag = "a") : (mkSlot t i e).href.isSome = true := by
  have he : e.tag = "a" := h
  simp [mkSlot, he]

theorem mkSlot_img_present (t : String) (i : Nat) (e : Element)
    (h : (mkSlot t i e).tag = "img") :
    (mkSlot t i e).src.isSome = true ∧ (mkSlot t i e).alt.isSome = true := by
  have he : e.tag = "img" := h
  simp [mkSlot, he]

theorem mkSlot_slotType (t : String) (i : Nat) (e : Element) :
    (mkSlot t i e).slotType = t := rfl

theorem extractElems_mem (ty : String) (es : List Element) (idx : Nat) :
    ∀ s ∈ (extractElems ty es idx).1, ∃ i e, s = mkSlot ty i e := by
  induction es generalizing idx with
  | nil => simp [extractElems]
  | cons e es ih =>
    intro s hs
    rw [extractElems] at hs
    by_cases hf : e.fails = true
    · rw [if_pos hf] at hs
      exact ih idx s hs
    · rw [if_neg hf] at hs
      rcases List.mem_cons.mp hs with hs1 | hs2
      · exact ⟨idx, e, hs1⟩
      · exact ih (idx + 1) s hs2

theorem extractElems_length (ty : String) (es : List Element) (idx : Nat) :
    (extractElems ty es idx).1.length ≤ es.length := by
  induction es generalizing idx with
  | nil => simp [extractElems]
  | cons e es ih =>
    rw [extractElems]
    by_cases hf : e.fails = true
    · rw [if_pos hf]
      exact le_trans (ih idx) (Nat.le_succ _)
    · rw [if_neg hf]
      simpa using Nat.succ_le_succ (ih (idx + 1))

theorem extractGroups_mem (env : Env) (gs : List (String × String)) (idx : Nat) :
    ∀ s ∈ (extractGroups env gs idx).1,
      s.slotType ∈ gs.map Prod.fst ∧ ∃ i e, s = mkSlot s.slotType i e := by
  intro s hs
  induction gs generalizing idx with
  | nil => simp [extractGroups] at hs
  | cons g gs ih =>
    obtain ⟨ty, sel⟩ := g
    rw [extractGroups] at hs
    cases hfe : env.findElements sel with
    | error m =>
      rw [hfe] at hs
      have h := ih _ hs
      exact ⟨List.mem_cons_of_mem _ h.1, h.2⟩
    | ok elems =>
      rw [hfe] at hs
      dsimp only at hs
      rcases List.mem_append.mp hs with hs1 | hs2
      · rcases extractElems_mem ty (elems.take 20) idx s hs1 with ⟨i, e, hmk⟩
        have hty : s.slotType = ty := by rw [hmk]; rfl
        refine ⟨?_, i, e, ?_⟩
        · rw [hty]; exact List.mem_cons_self _ _
        · rw [hty]; exact hmk
      · have h := ih _ hs2
        exact ⟨List.mem_cons_of_mem _ h.1, h.2⟩

theorem extractElems_slotType (ty : String) (es : List Element) (idx : Nat) :
    ∀ s ∈ (extractElems ty es idx).1, s.slotType = ty := by
  intro s hs
  rcases extractElems_mem ty es idx s hs with ⟨i, e, hmk⟩
  rw [hmk]
  rfl

theorem extractGroups_filter_le (env : Env) (gs : List (String × String)) :
    ∀ (idx : Nat) (ty : String), (gs.map Prod.fst).Nodup →
      ((extractGroups env gs idx).1.filter (fun s => s.slotType == ty)).length ≤ 20 := by
  induction gs with
  | nil =>
    intro idx ty _
    simp [extractGroups]
  | cons g gs ih =>
    obtain ⟨ty0, sel⟩ := g
    intro idx ty hnd
    have hnd2 : (gs.map Prod.fst).Nodup := (List.nodup_cons.mp hnd).2
    have hnotin : ty0 ∉ gs.map Prod.fst := (List.nodup_cons.mp hnd).1
    rw [extractGroups]
    cases hfe : env.findElements sel with
    | error m => exact ih idx ty hnd2
    | ok elems =>
      dsimp only
      rw [List.filter_append, List.length_append]
      by_cases hty : ty0 = ty
      · subst hty
        have hrest : ((extractGroups env gs
            (extractElems ty0 (elems.take 20) idx).2).1.filter
              (fun s => s.slotType == ty0)) = [] := by
          rw [List.filter_eq_nil_iff]
          intro s hs
          have hmem := (extractGroups_mem env gs _ s hs).1
          simp only [beq_iff_eq]
          intro heq
          exact hnotin (heq ▸ hmem)
        have hfirst : ((extractElems ty0 (elems.take 20) idx).1.filter
            (fun s => s.slotType == ty0)).length ≤ 20 := by
          refine le_trans (List.length_filter_le _ _) ?_
          refine le_trans (extractElems_length _ _ _) ?_
          exact List.length_take_le 20 elems
        rw [hrest]
        simpa using hfirst
      · have hfirst : ((extractElems ty0 (elems.take 20) idx).1.filter
            (fun s => s.slotType == ty)) = [] := by
          rw [List.filter_eq_nil_iff]
          intro s hs
          have := extractElems_slotType ty0 (elems.take 20) idx s hs
          simp only [beq_iff_eq]
          intro heq
          exact hty (this ▸ heq)
        rw [hfirst]
        simpa using ih _ ty hnd2

/-- C6: every extracted SlotRecord has text of at most 100 characters;
every anchor-tagged record carries an `href` key (possibly empty); every
image-tagged record carries both `src` and `alt` keys; and each selector
group contributes at most 20 records. -/
theorem c6_slot_record_shape (env : Env) (r : RunResult) :
    (∀ s ∈ (extractSlots env r).slots,
        s.text.length ≤ 100 ∧
        (s.tag = "a" → s.href.isSome = true) ∧
        (s.tag = "img" → s.src.isSome = true ∧ s.alt.isSome = true)) ∧
    (∀ ty : String,
        ((extractSlots env r).slots.filter (fun s => s.slotType == ty)).length ≤ 20) := by
  constructor
  · intro s hs
    have hs2 : s ∈ (extractGroups env slotSelectors 1).1 := hs
    rcases (extractGroups_mem env slotSelectors 1 s hs2).2 with ⟨i, e, hmk⟩
    rw [hmk]
    exact ⟨mkSlot_text_le _ _ _, mkSlot_href_present _ _ _, mkSlot_img_present _ _ _⟩
  · intro ty
    have hnd : (slotSelectors.map Prod.fst).Nodup := by decide
    exact extractGroups_filter_le env slotSelectors 1 ty hnd

/-- Witness for C6: a concrete anchor element is extracted with its
`href` key present and bounded text. -/
theorem c6_slot_record_shape_witness :
    ((extractSlots envC3 (initResults envC3)).slots.filter
        (fun s => s.slotType == "links")).length ≤ 20 :=
  (c6_slot_record_shape envC3 (initResults envC3)).2 "links"

theorem decDigitsAux_stable (n : Nat) : ∀ (f1 f2 : Nat), n < f1 → n < f2 →
    decDigitsAux f1 n = decDigitsAux f2 n := by
  induction n using Nat.strong_induction_on with
  | _ n ih =>
    intro f1 f2 h1 h2
    obtain ⟨g1, rfl⟩ : ∃ k, f1 = k + 1 := ⟨f1 - 1, by omega⟩
    obtain ⟨g2, rfl⟩ : ∃ k, f2 = k + 1 := ⟨f2 - 1, by omega⟩
    rw [decDigitsAux, decDigitsAux]
    by_cases h : n < 10
    · rw [if_pos h, if_pos h]
    · rw [if_neg h, if_neg h]
      have hlt : n / 10 < n := Nat.div_lt_self (by omega) (by omega)
      rw [ih (n / 10) hlt g1 g2 (by omega) (by omega)]

theorem decDigitsAux_eq (f n : Nat) (h : n < f) : decDigitsAux f n = decDigits n :=
  decDigitsAux_stable n f (n + 1) h (Nat.lt_succ_self n)

theorem digitChar_toNat (n : Nat) (h : n < 10) : (Nat.digitChar n).toNat - 48 = n := by
  interval_cases n <;> decide

theorem foldl_decDigits (n : Nat) : ∀ (a : Nat),
    List.foldl (fun x c => 10 * x + (c.toNat - 48)) a (decDigits n)
      = a * 10 ^ (decDigits n).length + n := by
  induction n using Nat.strong_induction_on with
  | _ n ih =>
    intro a
    by_cases h : n < 10
    · have hd : decDigits n = [Nat.digitChar n] := by
        rw [decDigits, decDigitsAux, if_pos h]
      rw [hd]
      simp only [List.foldl_cons, List.foldl_nil, List.length_cons,
        List.length_nil, pow_one, Nat.zero_add]
      rw [digitChar_toNat n h]
      omega
    · have hlt : n / 10 < n := Nat.div_lt_self (by omega) (by omega)
      have hd : decDigits n = decDigits (n / 10) ++ [Nat.digitChar (n % 10)] := by
        rw [decDigits, decDigitsAux, if_neg h]
        rw [decDigitsAux_eq n (n / 10) (by omega)]
      rw [hd, List.foldl_append]
      simp only [List.foldl_cons, List.foldl_nil]
      rw [ih (n / 10) hlt a]
      rw [digitChar_toNat (n % 10) (Nat.mod_lt n (by omega))]
      rw [List.length_append, List.length_cons, List.length_nil]
      have hpow : a * 10 ^ ((decDigits (n / 10)).length + 0 + 1)
          = 10 * (a * 10 ^ (decDigits (n / 10)).length) := by
        ring
      rw [hpow]
      omega

theorem decVal_decDigits (n : Nat) : decVal (decDigits n) = n := by
  have h := foldl_decDigits n 0
  simpa [decVal] using h

theorem decVal_pad2 (n : Nat) : decVal ((pad2 n).toList) = n := by
  unfold pad2
  by_cases h : n < 10
  · rw [if_pos h]
    show decVal ('0' :: decDigits n) = n
    unfold decVal
    rw [List.foldl_cons]
    have h0 : (10 * 0 + ('0'.toNat - 48)) = 0 := by decide
    rw [h0]
    exact decVal_decDigits n
  · rw [if_neg h]
    exact decVal_decDigits n

theorem parseIdx_sIdx : Function.LeftInverse parseIdx sIdx := by
  intro n
  have hmk : pad2 n = String.mk (pad2 n).data := by
    cases hp : pad2 n
    rfl
  have hS : ("S" ++ pad2 n).toList = 'S' :: (pad2 n).data := by
    rw [hmk]
    rfl
  unfold parseIdx sIdx
  rw [hS]
  show decVal ((pad2 n).data) = n
  exact decVal_pad2 n

theorem sIdx_injective : Function.Injective sIdx :=
  Function.LeftInverse.injective parseIdx_sIdx

theorem range'_append_one (s m n : Nat) :
    List.range' s m ++ List.range' (s + m) n = List.range' s (m + n) := by
  have h := List.range'_append s m n 1
  rw [one_mul] at h
  rw [Nat.add_comm m n]
  exact h

theorem extractElems_indexes (ty : String) (es : List Element) : ∀ (idx : Nat),
    (extractElems ty es idx).2 = idx + (extractElems ty es idx).1.length ∧
    (extractElems ty es idx).1.map Slot.index
      = (List.range' idx (extractElems ty es idx).1.length).map sIdx := by
  induction es with
  | nil =>
    intro idx
    simp [extractElems]
  | cons e es ih =>
    intro idx
    rw [extractElems]
    by_cases hf : e.fails = true
    · simp only [if_pos hf]
      exact ih idx
    · simp only [if_neg hf]
      obtain ⟨ih1, ih2⟩ := ih (idx + 1)
      constructor
      · rw [List.length_cons, ih1]
        omega
      · rw [List.map_cons, List.length_cons, List.range'_succ, List.map_cons, ih2]
        rfl

theorem extractGroups_indexes (env : Env) (gs : List (String × String)) : ∀ (idx : Nat),
    (extractGroups env gs idx).2 = idx + (extractGroups env gs idx).1.length ∧
    (extractGroups env gs idx).1.map Slot.index
      = (List.range' idx (extractGroups env gs idx).1.length).map sIdx := by
  induction gs with
  | nil =>
    intro idx
    simp [extractGroups]
  | cons g gs ih =>
    obtain ⟨ty, sel⟩ := g
    intro idx
    rw [extractGroups]
    cases hfe : env.findElements sel with
    | error m =>
      dsimp only
      exact ih idx
    | ok elems =>
      dsimp only
      obtain ⟨he1, he2⟩ := extractElems_indexes ty (elems.take 20) idx
      obtain ⟨ig1, ig2⟩ := ih (extractElems ty (elems.take 20) idx).2
      constructor
      · rw [List.length_append, ig1, he1]
        omega
      · rw [List.map_append, he2, ig2, he1, List.length_append]
        rw [← range'_append_one idx (extractElems ty (elems.take 20) idx).1.length
              (extractGroups env gs (idx + (extractElems ty (elems.take 20) idx).1.length)).1.length]
        rw [List.map_append]

/-- C4 (amended): the slot indices assigned during extraction are the
labels `sIdx 1, sIdx 2, ...` of a single counter that increases by one
per record across all selector groups (never reset), hence pairwise
distinct and numerically strictly increasing; each label is `S` followed
by the counter's decimal digits zero-padded to a minimum width of two
(exactly two digits for counters up to 99, more digits from 100 on). -/
theorem c4_slot_indexes (env : Env) (r : RunResult) :
    (extractSlots env r).slots.map Slot.index
      = (List.range' 1 (extractSlots env r).slots.length).map sIdx ∧
    ((extractSlots env r).slots.map Slot.index).Nodup ∧
    List.Pairwise (· < ·)
      ((extractSlots env r).slots.map (fun s => parseIdx s.index)) := by
  have h := (extractGroups_indexes env slotSelectors 1).2
  have hmap : (extractSlots env r).slots.map Slot.index
      = (List.range' 1 (extractSlots env r).slots.length).map sIdx := h
  refine ⟨hmap, ?_, ?_⟩
  · rw [hmap]
    exact (List.nodup_range' _ _).map sIdx_injective
  · have hpm : (extractSlots env r).slots.map (fun s => parseIdx s.index)
        = ((extractSlots env r).slots.map Slot.index).map parseIdx := by
      rw [List.map_map]
      rfl
    rw [hpm, hmap, List.map_map]
    have hid : (parseIdx ∘ sIdx) = id := funext parseIdx_sIdx
    rw [hid, List.map_id]
    exact List.pairwise_lt_range' _ _

/-- A plain visible element, successfully processed during extraction. -/
def elemDiv : Element :=
  { text := "본문", tag := "div", visible := true,
    hrefAttr := none, srcAttr := none, altAttr := none, fails := false }

/-- A page on which every selector group matches 20 elements, so that
extraction appends 6 × 20 = 120 slot records. -/
def envC4 : Env :=
  { envBase with findElements := fun _ => .ok (List.replicate 20 elemDiv) }

/-- C4 (counterexample): with 120 extracted records the 100th slot is
labelled `S100` — `S` followed by THREE digits — so not every index is
`S` plus a 2-digit zero-padded number (`f'{n:02d}'` only pads up to
width 2, it does not cap at it). -/
theorem c4_slot_indexes_cex :
    "S100" ∈ (extractSlots envC4 (initResults envC4)).slots.map Slot.index ∧
    (extractSlots envC4 (initResults envC4)).slots.length = 120 ∧
    "S100".length = 4 := by
  refine ⟨?_, by decide, by decide⟩
  decide
